import Mathlib

/-!
Verification of the PostgreSQL plugin (three-pool variant with the Azure
signed-URL issuer, plus the single-pool variant where relevant).

The embedding models each JavaScript function of the source as a Lean
function.  Asynchronous effects are made explicit: the outcome of every
external operation (pool.connect, client.query, pool.end, SAS signing) is
a parameter, and each computation returns its result (or thrown error)
together with an ordered trace of observable events (connection acquire
and release, query invocations, pool closes, console output).
-/

namespace Plugin

/-- A JavaScript error value as the plugin observes it: message, an optional
error code, and a stack trace. -/
structure JsError where
  message : String
  code : Option String := none
  stack : String := ""
deriving DecidableEq, Repr

/-- Identifiers of the three connection pools the module creates at load time
(shannon_pool, tolka_pool, liffey_pool). -/
inductive PoolId
  | shannon
  | tolka
  | liffey
deriving DecidableEq, Repr

/-- A result row: column name to value text. -/
abbrev Row := List (String × String)

/-- The pg QueryResult as used by the plugin: the rows plus rowCount. -/
structure QueryResult where
  rows : List Row
  rowCount : Nat
deriving DecidableEq, Repr

/-- Observable events emitted while a computation runs. -/
inductive Event
  | acquire (pool : PoolId)
  | release (pool : PoolId)
  | queryCall (pool : PoolId) (text : String) (params : List String)
  | closePool (pool : PoolId)
  | logOut (msg : String)
  | logErr (msg : String)
deriving DecidableEq, Repr

/-- An effectful computation: its result (or the error it threw) together
with the ordered trace of events it emitted. -/
def M (α : Type) : Type := Except JsError α × List Event

/-- Return a value, emitting nothing. -/
def pureM {α : Type} (a : α) : M α := (Except.ok a, [])

/-- Throw an error (JS throw). -/
def throwM {α : Type} (e : JsError) : M α := (Except.error e, [])

/-- Emit a single event. -/
def emitM (ev : Event) : M Unit := (Except.ok (), [ev])

/-- Sequencing: a thrown error short-circuits, traces concatenate. -/
def bindM {α β : Type} (x : M α) (f : α → M β) : M β :=
  match x with
  | (Except.error e, tr) => (Except.error e, tr)
  | (Except.ok a, tr) => ((f a).1, tr ++ (f a).2)

/-- JS try/catch: run the body; if it throws, run the handler on the error. -/
def tryCatchM {α : Type} (body : M α) (handler : JsError → M α) : M α :=
  match body with
  | (Except.ok a, tr) => (Except.ok a, tr)
  | (Except.error e, tr) => ((handler e).1, tr ++ (handler e).2)

/-- JS try/finally: the finalizer runs after the body on both the success and
the throw path; when the finalizer completes normally the body outcome is
kept, and a throw from the finalizer replaces the outcome. -/
def tryFinallyM {α : Type} (body : M α) (fin : M Unit) : M α :=
  match fin with
  | (Except.ok _, ftr) => (body.1, body.2 ++ ftr)
  | (Except.error fe, ftr) => (Except.error fe, body.2 ++ ftr)

/-- pool.connect(): the outcome is an external input; a successful borrow
emits an acquire event for that pool, a failed one borrows nothing. -/
def poolConnect (pool : PoolId) (outcome : Except JsError Unit) : M Unit :=
  match outcome with
  | Except.ok _ => (Except.ok (), [Event.acquire pool])
  | Except.error e => (Except.error e, [])

/-- client.release(): returns the borrowed client to the pool it came from. -/
def clientRelease (pool : PoolId) : M Unit := (Except.ok (), [Event.release pool])

/-- client.query(text, params): records the invocation; the result or error
raised by the backend is an external input and is returned unchanged. -/
def clientQuery (pool : PoolId) (text : String) (params : List String)
    (outcome : Except JsError QueryResult) : M QueryResult :=
  (outcome, [Event.queryCall pool text params])

/-- pool.end(): drains and closes the pool; the outcome is an external
input; the event records that the close was invoked on this pool. -/
def poolEnd (pool : PoolId) (outcome : Except JsError Unit) : M Unit :=
  (outcome, [Event.closePool pool])

/-- console.log -/
def consoleLog (msg : String) : M Unit := emitM (Event.logOut msg)

/-- console.error -/
def consoleError (msg : String) : M Unit := emitM (Event.logErr msg)

/-- The log prefix constant of the module. -/
def MODULE_NAME : String := "[SillyTavern-PostgreSQL]"

/-- sql_connect of the three-pool variant: borrow a client from the pool,
log, release it; on a thrown connection error, log it, swallow it when the
code is ETIMEDOUT and rethrow it otherwise. -/
def sql_connect (pool : PoolId) (connectOutcome : Except JsError Unit) : M Unit :=
  tryCatchM
    (bindM (poolConnect pool connectOutcome) fun _ =>
      bindM (consoleLog "Database connection established") fun _ =>
        clientRelease pool)
    (fun e =>
      bindM (consoleError ("Database connection error: " ++ e.message ++ " " ++ e.stack)) fun _ =>
        if e.code = some "ETIMEDOUT" then
          consoleLog "Database connection timeout"
        else
          throwM e)

/-- sql_query of the three-pool variant: borrow a client (outside any
try), then inside try/finally log the query text, run it, log the result
on success or log and rethrow the error on failure, and release the client
in the finally block. -/
def sql_query (pool : PoolId) (text : String) (params : List String)
    (connectOutcome : Except JsError Unit)
    (queryOutcome : Except JsError QueryResult) : M QueryResult :=
  bindM (poolConnect pool connectOutcome) fun _ =>
    tryFinallyM
      (tryCatchM
        (bindM (consoleLog (MODULE_NAME ++ " " ++ text)) fun _ =>
          bindM (clientQuery pool text params queryOutcome) fun res =>
            bindM (consoleLog ("Executed query " ++ text ++ " rows " ++ toString res.rowCount)) fun _ =>
              pureM res)
        (fun e =>
          bindM (consoleError ("Query error " ++ e.message ++ " " ++ e.stack)) fun _ =>
            throwM e))
      (clientRelease pool)

/-- Recognizer for release events, used to state the bracket invariant. -/
def isReleaseEvent : Event → Bool
  | Event.release _ => true
  | _ => false

/-- C1: in sql_query, a connection borrowed from the pool at the start is
released back to that same pool exactly once before the call completes,
whether the query succeeds or throws; when the borrow itself fails no
release occurs. -/
theorem sql_query_release_bracket (pool : PoolId) (text : String) (params : List String)
    (connectOutcome : Except JsError Unit) (queryOutcome : Except JsError QueryResult) :
    ((sql_query pool text params connectOutcome queryOutcome).2.filter isReleaseEvent) =
      (match connectOutcome with
       | Except.ok _ => [Event.release pool]
       | Except.error _ => []) := by
  cases connectOutcome with
  | ok u => cases queryOutcome <;> rfl
  | error e => rfl

/-- sql_closeConnection: await pool.end() inside try; on a thrown error log
it and rethrow. -/
def sql_closeConnection (pool : PoolId) (endOutcome : Except JsError Unit) : M Unit :=
  tryCatchM
    (bindM (poolEnd pool endOutcome) fun _ =>
      consoleLog "All database connections have been closed.")
    (fun e =>
      bindM (consoleError ("Error closing database connections: " ++ e.message ++ " " ++ e.stack)) fun _ =>
        throwM e)

/-- The exit lifecycle hook of the three-pool variant: it calls
sql_closeConnection on shannon_pool and on tolka_pool without awaiting
either promise (fire-and-forget, so their outcomes are discarded and the
hook itself always resolves), then logs.  No close is invoked on
liffey_pool. -/
def exit (endOutcome : PoolId → Except JsError Unit) : M Unit :=
  let c1 := sql_closeConnection PoolId.shannon (endOutcome PoolId.shannon)
  let c2 := sql_closeConnection PoolId.tolka (endOutcome PoolId.tolka)
  (Except.ok (), c1.2 ++ c2.2 ++ [Event.logOut (MODULE_NAME ++ " Plugin exited")])

/-- The pools constructed at module load: new Pool is called for the
shannon, tolka and liffey configurations. -/
def startupPools : List PoolId := [PoolId.shannon, PoolId.tolka, PoolId.liffey]

/-- Model of the JS String() coercion applied to a possibly-undefined
environment value: String(undefined) is the literal text undefined. -/
def jsString : Option String → String
  | some s => s
  | none => "undefined"

/-- A JS number as the configuration stores it: NaN or a numeric value
(integers suffice for the ports used here). -/
inductive JSNum
  | nan
  | num (n : Int)
deriving DecidableEq, Repr

/-- Model of the JS Number() coercion applied to a possibly-undefined
environment value: Number(undefined) is NaN; a present string yields its
numeric value when it is integral text and NaN otherwise (a partial model
of Number on strings, sufficient for port values). -/
def jsNumber : Option String → JSNum
  | none => JSNum.nan
  | some s =>
    match s.toInt? with
    | some n => JSNum.num n
    | none => JSNum.nan

/-- The DatabaseConfig record, with the ssl policy flattened to the single
rejectUnauthorized flag the source sets. -/
structure DatabaseConfig where
  user : String
  host : String
  database : String
  password : String
  port : JSNum
  max : Nat
  sslRejectUnauthorized : Bool
deriving DecidableEq, Repr

/-- shannon_config: each field is read from the environment at module load
through String() or Number(); max is 3 and certificate validation is
disabled. -/
def shannon_config (env : String → Option String) : DatabaseConfig :=
  { user := jsString (env "SHANNON_USER")
    host := jsString (env "SHANNON_HOST")
    database := jsString (env "SHANNON_DATABASE")
    password := jsString (env "SHANNON_PASSWORD")
    port := jsNumber (env "SHANNON_PORT")
    max := 3
    sslRejectUnauthorized := false }

/-- tolka_config, read from the TOLKA environment triple. -/
def tolka_config (env : String → Option String) : DatabaseConfig :=
  { user := jsString (env "TOLKA_USER")
    host := jsString (env "TOLKA_HOST")
    database := jsString (env "TOLKA_DATABASE")
    password := jsString (env "TOLKA_PASSWORD")
    port := jsNumber (env "TOLKA_PORT")
    max := 3
    sslRejectUnauthorized := false }

/-- liffey_config, read from the LIFFEY environment triple. -/
def liffey_config (env : String → Option String) : DatabaseConfig :=
  { user := jsString (env "LIFFEY_USER")
    host := jsString (env "LIFFEY_HOST")
    database := jsString (env "LIFFEY_DATABASE")
    password := jsString (env "LIFFEY_PASSWORD")
    port := jsNumber (env "LIFFEY_PORT")
    max := 3
    sslRejectUnauthorized := false }

/-- Pool construction at module load: one pool per configuration record;
construction is total, whatever the environment holds. -/
def startupPoolConfigs (env : String → Option String) : List (PoolId × DatabaseConfig) :=
  [(PoolId.shannon, shannon_config env),
   (PoolId.tolka, tolka_config env),
   (PoolId.liffey, liffey_config env)]

/-- The Azure BlobSASPermissions record. -/
structure BlobSASPermissions where
  read : Bool := false
  add : Bool := false
  create : Bool := false
  write : Bool := false
  delete : Bool := false
deriving DecidableEq, Repr

/-- Model of BlobSASPermissions.parse of the Azure SDK for the permission
characters relevant here: each character switches its flag on. -/
def BlobSASPermissions.parse (s : String) : BlobSASPermissions :=
  s.toList.foldl (fun p c =>
    match c with
    | 'r' => { p with read := true }
    | 'a' => { p with add := true }
    | 'c' => { p with create := true }
    | 'w' => { p with write := true }
    | 'd' => { p with delete := true }
    | _ => p) {}

/-- The Azure SASProtocol option values. -/
inductive SASProtocol
  | https
  | httpsAndHttp
deriving DecidableEq, Repr

/-- Model of a JS Date instant: milliseconds since the epoch; getMinutes
reads the minutes field of the broken-down time. -/
def getMinutes (t : Nat) : Nat := t / 60000 % 60

/-- Date.setMinutes m: replaces the minutes field, with overflow beyond 59
rolling into the hours (Date normalization). -/
def setMinutes (t m : Nat) : Nat := t - getMinutes t * 60000 + m * 60000

/-- The options record handed to the SAS generator. -/
structure SasOptions where
  containerName : String
  blobName : String
  permissions : BlobSASPermissions
  startsOn : Nat
  expiresOn : Nat
  protocol : SASProtocol
deriving DecidableEq, Repr

/-- The canonical blob URL exposed by blobClient.url for the account,
container and blob. -/
def blobClientUrl (accountName containerName blobName : String) : String :=
  "https://" ++ accountName ++ ".blob.core.windows.net/" ++ containerName ++ "/" ++ blobName

/-- The sasOptions record built at issuance instant now: read-only
permissions, startsOn is now, expiresOn is now plus 15 minutes via
setMinutes, protocol restricted to https. -/
def sasOptionsFor (containerName blobName : String) (now : Nat) : SasOptions :=
  { containerName := containerName
    blobName := blobName
    permissions := BlobSASPermissions.parse "r"
    startsOn := now
    expiresOn := setMinutes now (getMinutes now + 15)
    protocol := SASProtocol.https }

/-- constructBlobUrlWithAccountKey: build the SAS options at the issuance
instant, sign them with the account key (the signing computation of the
SDK is the external input generateBlobSASQueryParameters), and append the
token as a query string to the canonical blob URL. -/
def constructBlobUrlWithAccountKey (accountName containerName blobName accountKey : String)
    (now : Nat) (generateBlobSASQueryParameters : String → SasOptions → String) : String :=
  blobClientUrl accountName containerName blobName ++ "?" ++
    generateBlobSASQueryParameters accountKey (sasOptionsFor containerName blobName now)

/-- The blob storage configuration read from the environment at module
load: account name, container name, account key. -/
def azure_blob_storage_config (env : String → Option String) : String × String × String :=
  (jsString (env "BLOB_STORAGE_ACCOUNT_NAME"),
   jsString (env "BLOB_STORAGE_CONTAINER_NAME"),
   jsString (env "BLOB_STORAGE_ACCOUNT_KEY"))

/-- downloadBlobNameUrl: combine the static blob configuration with the
requested blob name and issue the signed URL. -/
def downloadBlobNameUrl (env : String → Option String) (blobName : String)
    (now : Nat) (generateSas : String → SasOptions → String) : String :=
  let cfg := azure_blob_storage_config env
  constructBlobUrlWithAccountKey cfg.1 cfg.2.1 blobName cfg.2.2 now generateSas

/-- The JSON request body fields the handlers may read, plus a list of any
further fields the caller included. -/
structure RequestBody where
  query : String
  blobName : String
  extra : List (String × String)
deriving DecidableEq, Repr

/-- A response body: empty, plain text, the JSON serialization of a row
list, or the JSON object holding a blob_url field. -/
inductive Body
  | empty
  | text (s : String)
  | jsonRows (rows : List Row)
  | jsonBlobUrl (url : String)
deriving DecidableEq, Repr

/-- An HTTP response: status code and body. -/
structure Response where
  status : Nat
  body : Body
deriving DecidableEq, Repr

/-- Status message table of the codes this plugin can produce. -/
def statusMessage (code : Nat) : String :=
  if code == 200 then "OK"
  else if code == 204 then "No Content"
  else if code == 500 then "Internal Server Error"
  else toString code

/-- Express res.sendStatus: set the status and send its message as the
body, except that a 204 or 304 response carries no body. -/
def sendStatus (code : Nat) : Response :=
  if code == 204 || code == 304 then ⟨code, Body.empty⟩
  else ⟨code, Body.text (statusMessage code)⟩

/-- The handler shape of a registered route. -/
inductive RouteKind
  | probe
  | sqlQuery (pool : PoolId)
  | getBlobUrl
deriving DecidableEq, Repr

/-- A route registration: HTTP method, path, and which handler is bound. -/
structure Route where
  method : String
  path : String
  kind : RouteKind
deriving DecidableEq, Repr

/-- The registrations performed by init, in order: the probe route, the
generic sql_query route bound to the shannon pool, the shannon route
(whose registered path contains a space rather than an underscore), the
tolka route, and the blob URL route.  No route is bound to the liffey
pool. -/
def initRoutes : List Route :=
  [⟨"POST", "/probe", RouteKind.probe⟩,
   ⟨"POST", "/sql_query", RouteKind.sqlQuery PoolId.shannon⟩,
   ⟨"POST", "/shannon_sql query", RouteKind.sqlQuery PoolId.shannon⟩,
   ⟨"POST", "/tolka_sql_query", RouteKind.sqlQuery PoolId.tolka⟩,
   ⟨"POST", "/get_blob_url", RouteKind.getBlobUrl⟩]

/-- The external inputs a single request handling may consume: the outcome
of the connect performed by the fire-and-forget sql_connect call, the
outcome of the connect performed inside sql_query, the backend outcome of
the query itself, the current instant, the SDK signing function and the
process environment. -/
structure Outcomes where
  probeConnect : Except JsError Unit
  queryConnect : Except JsError Unit
  queryRun : Except JsError QueryResult
  now : Nat
  generateSas : String → SasOptions → String
  env : String → Option String

/-- The handler bodies registered by init.  A sql_query-family handler
first calls sql_connect on its pool WITHOUT awaiting it (the promise and
in particular its rejection are discarded; only its trace occurs), then
awaits sql_query with the body query field and an empty parameter list;
a success replies 200 with the rows as a JSON array, an error caught from
the awaited chain is logged and replied as a plain 500 Internal Server
Error.  The probe handler ignores its request and replies sendStatus 204.
The blob handler signs the requested blob name and replies the URL. -/
def runRoute (kind : RouteKind) (req : RequestBody) (o : Outcomes) :
    Response × List Event :=
  match kind with
  | RouteKind.probe => (sendStatus 204, [])
  | RouteKind.sqlQuery pool =>
    let probe := sql_connect pool o.probeConnect
    let q := sql_query pool req.query [] o.queryConnect o.queryRun
    match q.1 with
    | Except.ok res => (⟨200, Body.jsonRows res.rows⟩, probe.2 ++ q.2)
    | Except.error e =>
      (⟨500, Body.text "Internal Server Error"⟩,
        probe.2 ++ q.2 ++ [Event.logErr (MODULE_NAME ++ " Request failed " ++ e.message)])
  | RouteKind.getBlobUrl =>
    (⟨200, Body.jsonBlobUrl (downloadBlobNameUrl o.env req.blobName o.now o.generateSas)⟩, [])

/-- True when the computation ended in a thrown error. -/
def isThrown {α : Type} : Except JsError α → Bool
  | Except.error _ => true
  | Except.ok _ => false

/-- True unless the event is a query invocation with a nonempty positional
parameter list. -/
def queryParamsEmpty : Event → Bool
  | Event.queryCall _ _ params => params.isEmpty
  | _ => true

/-- The backend names as they would appear in route paths. -/
def poolName : PoolId → String
  | PoolId.shannon => "shannon"
  | PoolId.tolka => "tolka"
  | PoolId.liffey => "liffey"

/-- C2 counterexample: it is not the case that every pool created at
startup receives a close during the exit hook: with every pool.end
resolving, the liffey pool is never closed. -/
theorem exit_closes_all_startup_pools_false :
    ¬ (∀ p ∈ startupPools,
        Event.closePool p ∈ (Plugin.exit (fun _ => Except.ok ())).2) := by
  intro h
  have hx := h PoolId.liffey (by decide)
  revert hx
  decide

/-- C2 amended: the exit hook invokes a pool close on the shannon and the
tolka pool (without awaiting completion) and never on the liffey pool, and
the hook itself always resolves. -/
theorem exit_closes_shannon_tolka_not_liffey (endOutcome : PoolId → Except JsError Unit) :
    Event.closePool PoolId.shannon ∈ (Plugin.exit endOutcome).2 ∧
    Event.closePool PoolId.tolka ∈ (Plugin.exit endOutcome).2 ∧
    Event.closePool PoolId.liffey ∉ (Plugin.exit endOutcome).2 ∧
    (Plugin.exit endOutcome).1 = Except.ok () := by
  cases h1 : endOutcome PoolId.shannon <;> cases h2 : endOutcome PoolId.tolka <;>
    simp [Plugin.exit, sql_closeConnection, poolEnd, tryCatchM, bindM, consoleLog,
      consoleError, emitM, throwM, h1, h2]

/-- C3: sql_connect of the most permissive variant borrows a connection
and immediately releases it on success; a connection error with code
ETIMEDOUT is swallowed and the call returns normally, while any other
connection error propagates unchanged to the caller. -/
theorem sql_connect_probe_spec (pool : PoolId) (connectOutcome : Except JsError Unit) :
    (sql_connect pool connectOutcome).1 =
      (match connectOutcome with
       | Except.ok _ => Except.ok ()
       | Except.error e =>
         if e.code = some "ETIMEDOUT" then Except.ok () else Except.error e) ∧
    ((sql_connect pool connectOutcome).2.filter isReleaseEvent) =
      (match connectOutcome with
       | Except.ok _ => [Event.release pool]
       | Except.error _ => []) := by
  cases connectOutcome with
  | ok u => exact ⟨rfl, rfl⟩
  | error e =>
    by_cases hc : e.code = some "ETIMEDOUT" <;>
      simp [sql_connect, poolConnect, tryCatchM, bindM, consoleLog, consoleError,
        emitM, throwM, clientRelease, isReleaseEvent, hc]

/-- C4: the signed-URL issuer returns the canonical blob URL with the SAS
token appended as a query string, and the token is computed over an
options record whose permissions are read-only, whose protocol is https
only, and whose validity window starts at the issuance instant and ends
exactly 15 minutes later. -/
theorem constructBlobUrl_spec (accountName containerName blobName accountKey : String)
    (now : Nat) (gen : String → SasOptions → String) :
    constructBlobUrlWithAccountKey accountName containerName blobName accountKey now gen =
      blobClientUrl accountName containerName blobName ++ "?" ++
        gen accountKey (sasOptionsFor containerName blobName now) ∧
    (sasOptionsFor containerName blobName now).permissions =
      { read := true, add := false, create := false, write := false, delete := false } ∧
    (sasOptionsFor containerName blobName now).protocol = SASProtocol.https ∧
    (sasOptionsFor containerName blobName now).startsOn = now ∧
    (sasOptionsFor containerName blobName now).expiresOn = now + 15 * 60000 ∧
    (sasOptionsFor containerName blobName now).blobName = blobName ∧
    (sasOptionsFor containerName blobName now).containerName = containerName := by
  refine ⟨rfl, ?_, rfl, rfl, ?_, rfl, rfl⟩
  · show BlobSASPermissions.parse "r" =
      { read := true, add := false, create := false, write := false, delete := false }
    decide
  · show setMinutes now (getMinutes now + 15) = now + 15 * 60000
    unfold setMinutes getMinutes
    omega

/-- C7: when the backend raises an error, sql_query rethrows that very
error object after logging it; when the borrow fails that error also
propagates unchanged; and on success the backend result is returned, so
the executor never swallows an error. -/
theorem sql_query_propagates_errors (pool : PoolId) (text : String) (params : List String)
    (e : JsError) (queryOutcome : Except JsError QueryResult) :
    (sql_query pool text params (Except.ok ()) (Except.error e)).1 = Except.error e ∧
    Event.logErr ("Query error " ++ e.message ++ " " ++ e.stack) ∈
      (sql_query pool text params (Except.ok ()) (Except.error e)).2 ∧
    (sql_query pool text params (Except.error e) queryOutcome).1 = Except.error e ∧
    (∀ res : QueryResult,
      (sql_query pool text params (Except.ok ()) (Except.ok res)).1 = Except.ok res) := by
  refine ⟨rfl, ?_, rfl, fun res => rfl⟩
  simp [sql_query, poolConnect, tryFinallyM, tryCatchM, bindM, consoleLog, consoleError,
    emitM, throwM, pureM, clientQuery, clientRelease]

/-- A connection-establishment failure other than a timeout, used to
exercise the fire-and-forget sql_connect call of the query routes. -/
def refusedError : JsError := ⟨"connect ECONNREFUSED", some "ECONNREFUSED", "stack"⟩

/-- Outcomes where the fire-and-forget connectivity probe throws but the
awaited query path succeeds. -/
def probeFailOutcomes : Outcomes :=
  { probeConnect := Except.error refusedError
    queryConnect := Except.ok ()
    queryRun := Except.ok ⟨[], 0⟩
    now := 0
    generateSas := fun _ _ => ""
    env := fun _ => none }

/-- C5 counterexample: it is not the case that every error thrown during
the handling of a sql_query-family request yields a 500 response: when the
un-awaited sql_connect call rejects with a non-timeout connection error
while the awaited query path succeeds, the handler replies 200. -/
theorem sql_query_route_500_claim_false :
    ¬ (∀ (pool : PoolId) (req : RequestBody) (o : Outcomes),
        (isThrown (sql_connect pool o.probeConnect).1 = true ∨
         isThrown (sql_query pool req.query [] o.queryConnect o.queryRun).1 = true) →
        (runRoute (RouteKind.sqlQuery pool) req o).1.status = 500) := by
  intro h
  have hx := h PoolId.shannon ⟨"SELECT 1", "", []⟩ probeFailOutcomes (Or.inl (by decide))
  revert hx
  decide

/-- C5 amended: any error thrown on the awaited handling path of a
sql_query-family route (the connection borrow inside sql_query or the
query execution) yields the constant plain-text 500 Internal Server Error
response, carrying no detail of the underlying error, while the error
message is written to the server-side log. -/
theorem sql_query_route_error_response (pool : PoolId) (req : RequestBody) (o : Outcomes)
    (e : JsError)
    (h : (sql_query pool req.query [] o.queryConnect o.queryRun).1 = Except.error e) :
    (runRoute (RouteKind.sqlQuery pool) req o).1 = ⟨500, Body.text "Internal Server Error"⟩ ∧
    Event.logErr (MODULE_NAME ++ " Request failed " ++ e.message) ∈
      (runRoute (RouteKind.sqlQuery pool) req o).2 := by
  simp [runRoute, h]

/-- Witness for the amended C5 theorem at concrete inputs: the connection
borrow inside sql_query fails. -/
theorem sql_query_route_error_response_witness :
    (runRoute (RouteKind.sqlQuery PoolId.shannon) ⟨"SELECT 1", "", []⟩
        { probeConnect := Except.ok ()
          queryConnect := Except.error refusedError
          queryRun := Except.ok ⟨[], 0⟩
          now := 0
          generateSas := fun _ _ => ""
          env := fun _ => none }).1 = ⟨500, Body.text "Internal Server Error"⟩ ∧
    Event.logErr (MODULE_NAME ++ " Request failed " ++ refusedError.message) ∈
      (runRoute (RouteKind.sqlQuery PoolId.shannon) ⟨"SELECT 1", "", []⟩
        { probeConnect := Except.ok ()
          queryConnect := Except.error refusedError
          queryRun := Except.ok ⟨[], 0⟩
          now := 0
          generateSas := fun _ _ => ""
          env := fun _ => none }).2 :=
  sql_query_route_error_response PoolId.shannon ⟨"SELECT 1", "", []⟩
    { probeConnect := Except.ok ()
      queryConnect := Except.error refusedError
      queryRun := Except.ok ⟨[], 0⟩
      now := 0
      generateSas := fun _ _ => ""
      env := fun _ => none } refusedError rfl

/-- C6 counterexample: init does not register a POST route at the path
slash backend underscore sql_query for every backend: the shannon
registration uses a space instead of the underscore before sql, and no
liffey route exists at all. -/
theorem init_backend_routes_claim_false :
    ¬ (∀ p : PoolId,
        Route.mk "POST" ("/" ++ poolName p ++ "_sql_query") (RouteKind.sqlQuery p) ∈ initRoutes) := by
  intro h
  have hx := h PoolId.shannon
  revert hx
  decide

/-- C6 amended: init registers the tolka route at the expected path; the
shannon-specific route is registered at a path containing a space rather
than an underscore, and the expected shannon path is absent; no route is
bound to the liffey pool; and each sql_query-family handler, on a
successful awaited path, executes the body query against its bound pool
and replies 200 with the row list as a JSON array. -/
theorem init_backend_routes_amended :
    Route.mk "POST" "/tolka_sql_query" (RouteKind.sqlQuery PoolId.tolka) ∈ initRoutes ∧
    Route.mk "POST" "/shannon_sql query" (RouteKind.sqlQuery PoolId.shannon) ∈ initRoutes ∧
    Route.mk "POST" "/shannon_sql_query" (RouteKind.sqlQuery PoolId.shannon) ∉ initRoutes ∧
    initRoutes.filter (fun r => r.kind == RouteKind.sqlQuery PoolId.liffey) = [] ∧
    (∀ (pool : PoolId) (req : RequestBody) (pc : Except JsError Unit) (res : QueryResult)
        (now : Nat) (gen : String → SasOptions → String) (env : String → Option String),
      (runRoute (RouteKind.sqlQuery pool) req ⟨pc, Except.ok (), Except.ok res, now, gen, env⟩).1 =
        ⟨200, Body.jsonRows res.rows⟩ ∧
      Event.queryCall pool req.query [] ∈
        (runRoute (RouteKind.sqlQuery pool) req ⟨pc, Except.ok (), Except.ok res, now, gen, env⟩).2) := by
  refine ⟨by decide, by decide, by decide, by decide, ?_⟩
  intro pool req pc res now gen env
  cases pc with
  | ok u =>
    constructor
    · rfl
    · simp [runRoute, sql_query, sql_connect, poolConnect, tryFinallyM, tryCatchM, bindM,
        consoleLog, consoleError, emitM, throwM, pureM, clientQuery, clientRelease]
  | error e =>
    constructor
    · rfl
    · by_cases hc : e.code = some "ETIMEDOUT" <;>
        simp [runRoute, sql_query, sql_connect, poolConnect, tryFinallyM, tryCatchM, bindM,
          consoleLog, consoleError, emitM, throwM, pureM, clientQuery, clientRelease, hc]

/-- C8: a missing environment value does not fail construction: each
missing string-valued variable yields the literal text undefined in the
configuration, a missing port yields NaN, and the pool constructions at
module load all still take place. -/
theorem missing_env_yields_sentinels (env : String → Option String)
    (hu : env "SHANNON_USER" = none) (hh : env "SHANNON_HOST" = none)
    (hd : env "SHANNON_DATABASE" = none) (hp : env "SHANNON_PASSWORD" = none)
    (hport : env "SHANNON_PORT" = none) :
    (shannon_config env).user = "undefined" ∧
    (shannon_config env).host = "undefined" ∧
    (shannon_config env).database = "undefined" ∧
    (shannon_config env).password = "undefined" ∧
    (shannon_config env).port = JSNum.nan ∧
    (startupPoolConfigs env).length = 3 := by
  simp [shannon_config, startupPoolConfigs, jsString, jsNumber, hu, hh, hd, hp, hport]

/-- Witness for the C8 theorem at the concrete fully-empty environment. -/
theorem missing_env_yields_sentinels_witness :
    (shannon_config (fun _ => none)).user = "undefined" ∧
    (shannon_config (fun _ => none)).host = "undefined" ∧
    (shannon_config (fun _ => none)).database = "undefined" ∧
    (shannon_config (fun _ => none)).password = "undefined" ∧
    (shannon_config (fun _ => none)).port = JSNum.nan ∧
    (startupPoolConfigs (fun _ => none)).length = 3 :=
  missing_env_yields_sentinels (fun _ => none) rfl rfl rfl rfl rfl

/-- C9: the probe route is registered at POST /probe and always responds
204 with an empty body, whatever the request body and the external pool
or database state, touching no pool at all. -/
theorem probe_route_spec (req : RequestBody) (o : Outcomes) :
    runRoute RouteKind.probe req o = (⟨204, Body.empty⟩, []) ∧
    Route.mk "POST" "/probe" RouteKind.probe ∈ initRoutes :=
  ⟨rfl, by decide⟩

/-- Every event the connectivity probe emits is free of query parameters. -/
theorem sql_connect_params_empty (pool : PoolId) (c : Except JsError Unit) :
    (sql_connect pool c).2.all queryParamsEmpty = true := by
  cases c with
  | ok u => rfl
  | error e =>
    by_cases hc : e.code = some "ETIMEDOUT" <;>
      simp [sql_connect, poolConnect, tryCatchM, bindM, consoleLog, consoleError,
        emitM, throwM, clientRelease, queryParamsEmpty, hc]

/-- Every event sql_query emits when handed an empty parameter list is
free of query parameters. -/
theorem sql_query_params_empty (pool : PoolId) (text : String)
    (cc : Except JsError Unit) (qr : Except JsError QueryResult) :
    (sql_query pool text [] cc qr).2.all queryParamsEmpty = true := by
  cases cc with
  | ok u =>
    cases qr <;>
      simp [sql_query, poolConnect, tryFinallyM, tryCatchM, bindM, consoleLog, consoleError,
        emitM, throwM, pureM, clientQuery, clientRelease, queryParamsEmpty]
  | error e => rfl

/-- C10: every sql_query-family handler passes an empty positional
parameter list to the query executor, and consumes no field of the
request body other than query: two bodies agreeing on query produce the
identical handling. -/
theorem query_routes_empty_params (pool : PoolId) (q bn1 bn2 : String)
    (ex1 ex2 : List (String × String)) (o : Outcomes) :
    ((runRoute (RouteKind.sqlQuery pool) ⟨q, bn1, ex1⟩ o).2.all queryParamsEmpty = true) ∧
    runRoute (RouteKind.sqlQuery pool) ⟨q, bn1, ex1⟩ o =
      runRoute (RouteKind.sqlQuery pool) ⟨q, bn2, ex2⟩ o := by
  constructor
  · have hprobe := sql_connect_params_empty pool o.probeConnect
    have hquery := sql_query_params_empty pool q o.queryConnect o.queryRun
    cases hq : (sql_query pool q [] o.queryConnect o.queryRun).1 with
    | ok res =>
      have htr : (runRoute (RouteKind.sqlQuery pool) ⟨q, bn1, ex1⟩ o).2 =
          (sql_connect pool o.probeConnect).2 ++ (sql_query pool q [] o.queryConnect o.queryRun).2 := by
        simp [runRoute, hq]
      rw [htr, List.all_append, hprobe, hquery]
      rfl
    | error e =>
      have htr : (runRoute (RouteKind.sqlQuery pool) ⟨q, bn1, ex1⟩ o).2 =
          (sql_connect pool o.probeConnect).2 ++ (sql_query pool q [] o.queryConnect o.queryRun).2 ++
            [Event.logErr (MODULE_NAME ++ " Request failed " ++ e.message)] := by
        simp [runRoute, hq]
      rw [htr, List.all_append, List.all_append, hprobe, hquery]
      rfl
  · rfl

end Plugin
